import Mathlib

/-!
Verification development for the CineMatch backend recommendation engine
(`app/services/MovieRecommender.py`, `app/routes/movies.py`, `app/models/dto.py`).

Modelling conventions:
- Python floats are modelled as exact rationals (`ℚ`).  IEEE rounding is not
  modelled; the claims under study are about the algorithmic structure.
- A SQL NULL / pandas NaN in a numeric column is modelled as `none` in
  `Option ℚ`; NaN propagation through arithmetic is modelled by the
  `Option` monad (see the popularity pipeline below).
- The square root used inside the cosine-similarity routine of the
  similarity library is kept abstract: every definition that needs it takes
  a function `sqrt : ℚ → ℚ` as a parameter, and theorems state the
  properties of `sqrt` they rely on as hypotheses.  Instantiating `sqrt`
  with the real square root recovers the exact Python computation; concrete
  test states below are chosen so that every norm that actually occurs is
  `0` or `1`, where any `sqrt` with `sqrt 0 = 0` and `sqrt 1 = 1` (for
  example the identity) agrees with the real square root.
- The primary engine-state model stores one numeric popularity score per
  row (`wr_normalized : ℚ`): it covers exactly the fitted engines whose
  popularity column holds no NaN.  A fit over a catalog containing a row
  with missing `vote_average` and nonzero `vote_count` produces NaN
  popularity scores (see the popularity-scorer pipeline used by claims C5
  and C6); a second, NaN-aware model of the fitted `recommend` path
  (suffix `N`, with `Option ℚ` scores, the CPython comparison semantics of
  NaN, and the CPython small-array sort) is used to settle what `recommend`
  does on such engines (claim C2).
-/

namespace CineMatch

/-- Python list slicing `l[:k]`: for `k ≥ 0` the first `k` elements, for
negative `k` everything except the last `-k` elements. -/
def pyTake {α : Type} (k : Int) (l : List α) : List α :=
  if 0 ≤ k then l.take k.toNat else l.take ((l.length : Int) + k).toNat

/-- Python `round(x, d)`: round to `d` decimal places, ties to even
(banker rounding), modelled exactly on rationals. -/
def pyRound (x : ℚ) (d : Nat) : ℚ :=
  let p : ℚ := (10 : ℚ) ^ d
  let s : ℚ := x * p
  let f : Int := ⌊s⌋
  let n : Int :=
    if s - f < 1/2 then f
    else if (1 : ℚ)/2 < s - f then f + 1
    else if f % 2 = 0 then f else f + 1
  (n : ℚ) / p

/-- Dot product of two dense rational vectors (truncating to the shorter). -/
def dot (u v : List ℚ) : ℚ := (List.zipWith (fun a b => a * b) u v).sum

/-- Sum of squares of a vector. -/
def sumSq (v : List ℚ) : ℚ := dot v v

/-- The L2 norm used by sklearn normalization, with the zero-norm guard of
`sklearn.preprocessing.normalize`: a zero norm is replaced by `1`. -/
def safeNorm (sqrt : ℚ → ℚ) (v : List ℚ) : ℚ :=
  let n := sqrt (sumSq v)
  if n = 0 then 1 else n

/-- `sklearn.metrics.pairwise.cosine_similarity` of two rows: both rows are
divided by their (guarded) L2 norms and dotted. -/
def cosineSim (sqrt : ℚ → ℚ) (u v : List ℚ) : ℚ :=
  dot u v / (safeNorm sqrt u * safeNorm sqrt v)

/-- Elementwise sum of two vectors. -/
def addVec (u v : List ℚ) : List ℚ := List.zipWith (fun a b => a + b) u v

/-- `np.mean(rows, axis=0)`: the elementwise mean of a list of rows. -/
def meanRows : List (List ℚ) → List ℚ
  | [] => []
  | v :: vs => (vs.foldl addVec v).map (fun x => x / ((vs.length : ℚ) + 1))

/-- The three text columns the engine builds a TF-IDF space for. -/
inductive Col where
  | overview
  | genres
  | keywords
deriving DecidableEq

/-- The per-column weight dictionary passed to `recommend`; the code reads
exactly the keys `overview`, `genres`, `keywords` via `weights.get(col, 0)`,
so a dictionary is equivalent to this record (an absent key is a 0 field). -/
structure Weights where
  overview : ℚ
  genres : ℚ
  keywords : ℚ
deriving DecidableEq

/-- One row of the fitted catalog DataFrame `self.df`, restricted to the
columns the claims touch.  `wr_normalized` is the popularity score column
added by `_calculate_popularity`. -/
structure MovieRow where
  id : Int
  title : String
  overview : String
  genres : String
  keywords : String
  vote_average : Option ℚ
  vote_count : ℚ
  wr_normalized : ℚ
deriving DecidableEq, Inhabited

/-- The dictionary `self.matrices`: one TF-IDF document-term matrix per text
column, each a list of dense rational rows. -/
structure Matrices where
  overview : List (List ℚ)
  genres : List (List ℚ)
  keywords : List (List ℚ)
deriving DecidableEq

/-- The dictionary `self.vectorizers`: the fitted vocabulary of each
TF-IDF vectorizer (opaque to `recommend`; carried for persistence). -/
structure Vectorizers where
  overview : List String
  genres : List String
  keywords : List String
deriving DecidableEq

/-- The fitted parameters of `self.scaler` (`sklearn MinMaxScaler`);
`none` models the unfitted scaler. -/
structure MinMaxScalerState where
  data_min : Option ℚ
  data_max : Option ℚ
deriving DecidableEq

/-- The state of a `MovieRecommender` instance: `df = none` models the
`self.df = None` set in `__init__` before any fit or load completes. -/
structure MovieRecommender where
  df : Option (List MovieRow)
  matrices : Matrices
  vectorizers : Vectorizers
  scaler : MinMaxScalerState
  C : Option ℚ
  m : Option ℚ
deriving DecidableEq

/-- One element of the list returned by `recommend`: the dict with keys
`id`, `relevance_score`, `column_contribution`. -/
structure Contributions where
  overview : ℚ
  genres : ℚ
  keywords : ℚ
  popularity : ℚ
deriving DecidableEq

structure RecommenderMovie where
  id : Int
  relevance_score : ℚ
  column_contribution : Contributions
deriving DecidableEq

/-- Message of the exception raised by `recommend` when `self.df is None`;
the spec taxonomy names this failure `NotFittedError`. -/
def notFittedError : String := "Model not loaded."

def MovieRecommender.default_weights : Weights :=
  { overview := 2/10, genres := 4/10, keywords := 4/10 }

/-- Default of the `top_n` parameter of `recommend`. -/
def MovieRecommender.default_top_n : Int := 20

/-- Default of the `min_score` parameter of `recommend`. -/
def MovieRecommender.default_min_score : ℚ := 1/10

/-- Default of the `similarity_weight` parameter of `recommend`. -/
def MovieRecommender.default_similarity_weight : ℚ := 4/5

/-- Step 1 of `recommend`:
`self.df[self.df["id"].isin(movie_ids)].index.tolist()` — the (ascending)
row positions whose `id` is among `movie_ids`. -/
def resolveIndices (rows : List MovieRow) (movie_ids : List Int) : List Nat :=
  (List.range rows.length).filter
    (fun idx => decide ((rows.getD idx default).id ∈ movie_ids))

/-- Row `idx` of a matrix (`matrix[idx]`). -/
def matRow (M : List (List ℚ)) (idx : Nat) : List ℚ := M.getD idx []

/-- `np.mean(matrix[input_indices], axis=0)`: the user profile vector of
one column. -/
def userProfile (M : List (List ℚ)) (input_indices : List Nat) : List ℚ :=
  meanRows (input_indices.map (matRow M))

/-- `cosine_similarity(user_profile, matrix).flatten()[idx]`. -/
def simScore (sqrt : ℚ → ℚ) (M : List (List ℚ)) (input_indices : List Nat)
    (idx : Nat) : ℚ :=
  cosineSim sqrt (userProfile M input_indices) (matRow M idx)

/-- `total_content_scores[idx]`: the weighted sum of the three per-column
similarities. -/
def contentScore (sqrt : ℚ → ℚ) (M : Matrices) (input_indices : List Nat)
    (w : Weights) (idx : Nat) : ℚ :=
  simScore sqrt M.overview input_indices idx * w.overview +
  simScore sqrt M.genres input_indices idx * w.genres +
  simScore sqrt M.keywords input_indices idx * w.keywords

/-- `pop_scores[idx]`, read from the `wr_normalized` column. -/
def popScore (rows : List MovieRow) (idx : Nat) : ℚ :=
  (rows.getD idx default).wr_normalized

/-- `final_scores[idx] = total_content_scores[idx] * similarity_weight
+ pop_scores[idx] * (1 - similarity_weight)`. -/
def finalScore (sqrt : ℚ → ℚ) (M : Matrices) (rows : List MovieRow)
    (input_indices : List Nat) (w : Weights) (similarity_weight : ℚ)
    (idx : Nat) : ℚ :=
  contentScore sqrt M input_indices w idx * similarity_weight +
  popScore rows idx * (1 - similarity_weight)

/-- The candidate loop of `recommend`: enumerate `final_scores`, skip seed
indices, skip scores below `min_score`, collect `(idx, score)` pairs in
ascending index order. -/
def candidateList (sqrt : ℚ → ℚ) (M : Matrices) (rows : List MovieRow)
    (input_indices : List Nat) (w : Weights)
    (similarity_weight min_score : ℚ) : List (Nat × ℚ) :=
  ((List.range rows.length).filter (fun idx =>
      decide (idx ∉ input_indices) &&
      decide (¬ finalScore sqrt M rows input_indices w similarity_weight idx
          < min_score))).map
    (fun idx => (idx, finalScore sqrt M rows input_indices w similarity_weight idx))

/-- One insertion step of a stable descending sort on the score component;
an element moves past the head only when its score is strictly smaller, so
elements with equal scores keep their original relative order, exactly as
Python `sorted(key=score, reverse=True)` (Timsort is stable). -/
def insertCand (p : Nat × ℚ) : List (Nat × ℚ) → List (Nat × ℚ)
  | [] => [p]
  | q :: qs => if p.2 < q.2 then q :: insertCand p qs else p :: q :: qs

/-- Stable sort of the candidate list by score, descending. -/
def sortCand : List (Nat × ℚ) → List (Nat × ℚ)
  | [] => []
  | p :: ps => insertCand p (sortCand ps)

/-- `sorted(candidates, key=lambda x: x[1], reverse=True)[:top_n]`. -/
def candPipeline (sqrt : ℚ → ℚ) (M : Matrices) (rows : List MovieRow)
    (input_indices : List Nat) (w : Weights)
    (similarity_weight min_score : ℚ) (top_n : Int) : List (Nat × ℚ) :=
  pyTake top_n
    (sortCand (candidateList sqrt M rows input_indices w similarity_weight min_score))

/-- `safe_divisor = final_score if final_score > 0 else 1.0`. -/
def safeDivisor (final_score : ℚ) : ℚ := if 0 < final_score then final_score else 1

/-- The contribution dictionary computed for one surviving candidate. -/
def mkContributions (sqrt : ℚ → ℚ) (M : Matrices) (rows : List MovieRow)
    (input_indices : List Nat) (w : Weights) (similarity_weight : ℚ)
    (idx : Nat) (final_score : ℚ) : Contributions :=
  let c_ov := simScore sqrt M.overview input_indices idx * w.overview * similarity_weight
  let c_ge := simScore sqrt M.genres input_indices idx * w.genres * similarity_weight
  let c_kw := simScore sqrt M.keywords input_indices idx * w.keywords * similarity_weight
  let c_pop := popScore rows idx * (1 - similarity_weight)
  { overview := pyRound (c_ov / safeDivisor final_score * 100) 2
    genres := pyRound (c_ge / safeDivisor final_score * 100) 2
    keywords := pyRound (c_kw / safeDivisor final_score * 100) 2
    popularity := pyRound (c_pop / safeDivisor final_score * 100) 2 }

/-- The result dict appended for one surviving candidate `(idx, score)`. -/
def formatResult (sqrt : ℚ → ℚ) (M : Matrices) (rows : List MovieRow)
    (input_indices : List Nat) (w : Weights) (similarity_weight : ℚ)
    (p : Nat × ℚ) : RecommenderMovie :=
  { id := (rows.getD p.1 default).id
    relevance_score := pyRound p.2 4
    column_contribution :=
      mkContributions sqrt M rows input_indices w similarity_weight p.1 p.2 }

/-- Body of `recommend` after the fit check and seed resolution:
`if not input_indices: return []`, then score, sort, truncate, format. -/
def recommendFitted (sqrt : ℚ → ℚ) (M : Matrices) (rows : List MovieRow)
    (input_indices : List Nat) (top_n : Int)
    (min_score similarity_weight : ℚ) (w : Weights) : List RecommenderMovie :=
  if input_indices = [] then []
  else
    (candPipeline sqrt M rows input_indices w similarity_weight min_score top_n).map
      (formatResult sqrt M rows input_indices w similarity_weight)

/-- `MovieRecommender.recommend(movie_ids, top_n=20, min_score=0.1,
similarity_weight=0.8, weights=None)`.  Defaults are supplied explicitly at
call sites (see the constants above).  A `weights` of `none` models the
Python `None` default, replaced by `default_weights` inside the body. -/
def MovieRecommender.recommend (self : MovieRecommender) (sqrt : ℚ → ℚ)
    (movie_ids : List Int) (top_n : Int) (min_score similarity_weight : ℚ)
    (weights : Option Weights) : Except String (List RecommenderMovie) :=
  match self.df with
  | none => .error notFittedError
  | some rows =>
    .ok (recommendFitted sqrt self.matrices rows (resolveIndices rows movie_ids)
      top_n min_score similarity_weight
      (weights.getD MovieRecommender.default_weights))

/-- The dictionary `model_data` written by `MovieRecommender.save`. -/
structure ModelData where
  df : Option (List MovieRow)
  matrices : Matrices
  vectorizers : Vectorizers
  scaler : MinMaxScalerState
  C : Option ℚ
  m : Option ℚ
deriving DecidableEq

/-- `MovieRecommender.save`: serialize the six fitted fields. -/
def MovieRecommender.save (self : MovieRecommender) : ModelData :=
  { df := self.df, matrices := self.matrices, vectorizers := self.vectorizers
    scaler := self.scaler, C := self.C, m := self.m }

/-- `MovieRecommender.load`: bypass `__init__` and restore the six fields
from the deserialized dictionary. -/
def MovieRecommender.load (data : ModelData) : MovieRecommender :=
  { df := data.df, matrices := data.matrices, vectorizers := data.vectorizers
    scaler := data.scaler, C := data.C, m := data.m }

/-- `RecommendMoviesRequest` (`app/models/dto.py`): the POST /recommend body.
It has exactly three fields — in particular no `min_score` field.  pydantic
fills `top_n := 10` and `similarity_weight := 7/10` when the caller omits
them (the explicit JSON-null case is not modelled). -/
structure RecommendMoviesRequest where
  ids : List Int
  top_n : Int
  similarity_weight : ℚ
deriving DecidableEq

/-- The fields of `MoviePublic` the handler success path would populate. -/
structure MoviePublic where
  id : Int
  title : String
  overview : String
deriving DecidableEq

/-- Models the attribute access `df_recs.iterrows()` in `recommend_by_ids`:
`recommend` returns a plain Python `list` of dicts (see its final
`return results`), and the `list` type has no `iterrows` method, so CPython
raises `AttributeError` on every value of that type, including `[]`. -/
def iterrows (_df_recs : List RecommenderMovie) : Except String (List MovieRow) :=
  .error "AttributeError: list object has no attribute iterrows"

/-- The row-to-response mapping of the (unreachable) handler success path. -/
def buildMoviePublic (row : MovieRow) : MoviePublic :=
  { id := row.id, title := row.title, overview := row.overview }

/-- `recommend_by_ids` (`app/routes/movies.py`): the POST /recommend handler.
The call `recommender.recommend(body.ids, body.top_n, body.similarity_weight)`
is positional, so `body.similarity_weight` lands in the `min_score`
parameter slot and `similarity_weight`/`weights` take their defaults. -/
def recommend_by_ids (recommender : MovieRecommender) (sqrt : ℚ → ℚ)
    (body : RecommendMoviesRequest) : Except String (List MoviePublic) := do
  let df_recs ← recommender.recommend sqrt body.ids body.top_n
    body.similarity_weight MovieRecommender.default_similarity_weight none
  let rows ← iterrows df_recs
  .ok (rows.map buildMoviePublic)

/-! The popularity scorer (`_calculate_popularity` and `_weighted_rating`),
modelled standalone over the vote columns of the catalog.  `Option ℚ` is
used where pandas produces NaN: `none` is a missing / NaN entry. -/

/-- Vote statistics of one catalog row. -/
structure VoteRow where
  vote_average : Option ℚ
  vote_count : ℚ
deriving DecidableEq

/-- `Series.mean()` of pandas: NaN entries are skipped (`skipna=True` is
the default); the mean of no values is NaN. -/
def pandasMean (xs : List (Option ℚ)) : Option ℚ :=
  let vals := xs.filterMap id
  if vals.length = 0 then none else some (vals.sum / (vals.length : ℚ))

/-- Ascending sort of a rational list. -/
def sortQ (l : List ℚ) : List ℚ := l.insertionSort (fun a b => a ≤ b)

/-- `Series.quantile(q)` of pandas with the default linear interpolation:
sort the values, take position `h = (n - 1) * q`, and interpolate linearly
between the neighbouring order statistics. -/
def pandasQuantile (q : ℚ) (xs : List ℚ) : Option ℚ :=
  if xs.length = 0 then none
  else
    let s := sortQ xs
    let h : ℚ := ((xs.length : ℚ) - 1) * q
    let i : Nat := (⌊h⌋).toNat
    let lo := s.getD i 0
    let hi := s.getD (i + 1) lo
    some (lo + (h - (⌊h⌋ : ℚ)) * (hi - lo))

/-- `_weighted_rating(x)` with the fitted `m` and `C` in scope: returns `0`
when `vote_count == 0` (checked first, so a missing `vote_average` does not
matter there), and otherwise `(v/(v+m))*R + (m/(v+m))*C`, which is NaN
(`none`) when `R`, `m` or `C` is NaN. -/
def weightedRating (m C : Option ℚ) (x : VoteRow) : Option ℚ :=
  if x.vote_count = 0 then some 0
  else do
    let R ← x.vote_average
    let mv ← m
    let Cv ← C
    some (x.vote_count / (x.vote_count + mv) * R + mv / (x.vote_count + mv) * Cv)

/-- `np.nanmin` over a column: the least non-NaN entry, NaN if none. -/
def listMin : List ℚ → Option ℚ
  | [] => none
  | x :: xs => some (xs.foldl min x)

/-- `np.nanmax` over a column: the greatest non-NaN entry, NaN if none. -/
def listMax : List ℚ → Option ℚ
  | [] => none
  | x :: xs => some (xs.foldl max x)

/-- `MinMaxScaler().fit_transform` with the default `(0, 1)` feature range:
`(x - data_min) / (data_max - data_min)`, where a zero data range is
replaced by `1` (`_handle_zeros_in_scale`), and NaN entries are ignored by
`fit` and propagated by `transform`. -/
def minMaxFitTransform (xs : List (Option ℚ)) : List (Option ℚ) :=
  match listMin (xs.filterMap id), listMax (xs.filterMap id) with
  | some lo, some hi =>
    let scale := if hi - lo = 0 then 1 else hi - lo
    xs.map (fun x => x.map (fun v => (v - lo) / scale))
  | _, _ => xs.map (fun _ => none)

/-- Result of `_calculate_popularity`: the two fitted constants and the two
columns it adds to the DataFrame. -/
structure PopularityFit where
  C : Option ℚ
  m : Option ℚ
  weighted_rating : List (Option ℚ)
  wr_normalized : List (Option ℚ)
deriving DecidableEq

/-- `_calculate_popularity`: compute `C` as the column mean of
`vote_average`, `m` as the 0.95 quantile of `vote_count`, the per-row
weighted-rating column, and its min-max-normalized `wr_normalized` form. -/
def calculatePopularity (rows : List VoteRow) : PopularityFit :=
  let C := pandasMean (rows.map VoteRow.vote_average)
  let m := pandasQuantile (95/100) (rows.map VoteRow.vote_count)
  let wr := rows.map (weightedRating m C)
  { C := C, m := m, weighted_rating := wr, wr_normalized := minMaxFitTransform wr }

/-- Membership of a popularity score in the unit interval, for an entry of
the (possibly NaN) `wr_normalized` column. -/
def scoreInUnit (x : Option ℚ) : Prop :=
  match x with
  | none => False
  | some q => 0 ≤ q ∧ q ≤ 1

instance (x : Option ℚ) : Decidable (scoreInUnit x) := by
  unfold scoreInUnit
  cases x
  · exact inferInstanceAs (Decidable False)
  · exact inferInstanceAs (Decidable (_ ∧ _))

/-! Helper lemmas about the candidate sort. -/

/-- The order produced on candidate pairs by the stable descending sort of
an index-ascending candidate list: strictly greater score first, equal
scores in ascending index order. -/
def candOrder (a b : Nat × ℚ) : Prop := b.2 < a.2 ∨ (a.2 = b.2 ∧ a.1 < b.1)

theorem mem_insertCand (p x : Nat × ℚ) :
    ∀ (l : List (Nat × ℚ)), x ∈ insertCand p l ↔ x = p ∨ x ∈ l
  | [] => by simp [insertCand]
  | q :: qs => by
    rw [insertCand]
    by_cases hc : p.2 < q.2
    · rw [if_pos hc]
      simp only [List.mem_cons, mem_insertCand p x qs]
      tauto
    · rw [if_neg hc]
      simp only [List.mem_cons]

theorem mem_sortCand (x : Nat × ℚ) :
    ∀ (l : List (Nat × ℚ)), x ∈ sortCand l ↔ x ∈ l
  | [] => by simp [sortCand]
  | q :: qs => by
    rw [sortCand, mem_insertCand, mem_sortCand x qs]
    simp

theorem length_insertCand (p : Nat × ℚ) :
    ∀ (l : List (Nat × ℚ)), (insertCand p l).length = l.length + 1
  | [] => rfl
  | q :: qs => by
    rw [insertCand]
    by_cases hc : p.2 < q.2
    · rw [if_pos hc]
      simp [length_insertCand p qs]
    · rw [if_neg hc]
      simp

theorem length_sortCand :
    ∀ (l : List (Nat × ℚ)), (sortCand l).length = l.length
  | [] => rfl
  | q :: qs => by rw [sortCand, length_insertCand, length_sortCand qs, List.length_cons]

theorem pairwise_insertCand {p : Nat × ℚ} :
    ∀ {l : List (Nat × ℚ)}, l.Pairwise candOrder → (∀ q ∈ l, p.1 < q.1) →
      (insertCand p l).Pairwise candOrder
  | [], _, _ => by simp [insertCand]
  | q :: qs, hl, hidx => by
    rw [List.pairwise_cons] at hl
    obtain ⟨hq, hqs⟩ := hl
    rw [insertCand]
    by_cases hc : p.2 < q.2
    · rw [if_pos hc, List.pairwise_cons]
      refine ⟨?_, pairwise_insertCand hqs (fun r hr => hidx r (List.mem_cons_of_mem q hr))⟩
      intro r hr
      rcases (mem_insertCand p r qs).mp hr with rfl | hr2
      · exact Or.inl hc
      · exact hq r hr2
    · rw [if_neg hc, List.pairwise_cons]
      have hqp : q.2 ≤ p.2 := not_lt.mp hc
      refine ⟨?_, List.pairwise_cons.mpr ⟨hq, hqs⟩⟩
      intro r hr
      rcases List.mem_cons.mp hr with rfl | hr2
      · rcases lt_or_eq_of_le hqp with h1 | h1
        · exact Or.inl h1
        · exact Or.inr ⟨h1.symm, hidx r (List.mem_cons_self r qs)⟩
      · rcases hq r hr2 with h2 | h2
        · exact Or.inl (h2.trans_le hqp)
        · rcases lt_or_eq_of_le hqp with h1 | h1
          · exact Or.inl (h2.1 ▸ h1)
          · exact Or.inr ⟨h1.symm.trans h2.1, hidx r (List.mem_cons_of_mem q hr2)⟩

theorem pairwise_sortCand :
    ∀ {l : List (Nat × ℚ)}, l.Pairwise (fun a b => a.1 < b.1) →
      (sortCand l).Pairwise candOrder
  | [], _ => by simp [sortCand]
  | q :: qs, hl => by
    rw [List.pairwise_cons] at hl
    rw [sortCand]
    exact pairwise_insertCand (pairwise_sortCand hl.2)
      (fun r hr => hl.1 r ((mem_sortCand r qs).mp hr))

theorem pyTake_sublist {α : Type} (k : Int) (l : List α) :
    List.Sublist (pyTake k l) l := by
  unfold pyTake
  by_cases h : 0 ≤ k
  · rw [if_pos h]; exact List.take_sublist _ l
  · rw [if_neg h]; exact List.take_sublist _ l

theorem length_pyTake_le {α : Type} {k : Int} (hk : 0 ≤ k) (l : List α) :
    ((pyTake k l).length : Int) ≤ k := by
  unfold pyTake
  rw [if_pos hk]
  calc ((l.take k.toNat).length : Int) ≤ (k.toNat : Int) := by
        exact_mod_cast List.length_take_le _ _
    _ = k := Int.toNat_of_nonneg hk

theorem mem_candidateList {sqrt : ℚ → ℚ} {M : Matrices} {rows : List MovieRow}
    {input_indices : List Nat} {w : Weights} {similarity_weight min_score : ℚ}
    {p : Nat × ℚ}
    (hp : p ∈ candidateList sqrt M rows input_indices w similarity_weight min_score) :
    p.1 < rows.length ∧ p.1 ∉ input_indices ∧ ¬ p.2 < min_score ∧
      p.2 = finalScore sqrt M rows input_indices w similarity_weight p.1 := by
  unfold candidateList at hp
  rw [List.mem_map] at hp
  obtain ⟨idx, hidx, rfl⟩ := hp
  rw [List.mem_filter] at hidx
  obtain ⟨hrange, hcond⟩ := hidx
  rw [List.mem_range] at hrange
  rw [Bool.and_eq_true, decide_eq_true_eq, decide_eq_true_eq] at hcond
  exact ⟨hrange, hcond.1, hcond.2, rfl⟩

theorem pairwise_candidateList (sqrt : ℚ → ℚ) (M : Matrices) (rows : List MovieRow)
    (input_indices : List Nat) (w : Weights) (similarity_weight min_score : ℚ) :
    (candidateList sqrt M rows input_indices w similarity_weight min_score).Pairwise
      (fun a b => a.1 < b.1) := by
  unfold candidateList
  rw [List.pairwise_map]
  exact (List.pairwise_lt_range rows.length).sublist (List.filter_sublist _)

theorem mem_candPipeline {sqrt : ℚ → ℚ} {M : Matrices} {rows : List MovieRow}
    {input_indices : List Nat} {w : Weights} {similarity_weight min_score : ℚ}
    {top_n : Int} {p : Nat × ℚ}
    (hp : p ∈ candPipeline sqrt M rows input_indices w similarity_weight min_score top_n) :
    p ∈ candidateList sqrt M rows input_indices w similarity_weight min_score := by
  unfold candPipeline at hp
  exact (mem_sortCand p _).mp ((pyTake_sublist _ _).subset hp)

theorem pairwise_candPipeline (sqrt : ℚ → ℚ) (M : Matrices) (rows : List MovieRow)
    (input_indices : List Nat) (w : Weights) (similarity_weight min_score : ℚ)
    (top_n : Int) :
    (candPipeline sqrt M rows input_indices w similarity_weight min_score top_n).Pairwise
      candOrder := by
  unfold candPipeline
  exact (pairwise_sortCand
    (pairwise_candidateList sqrt M rows input_indices w similarity_weight min_score)).sublist
    (pyTake_sublist _ _)

theorem getD_mem_of_lt {α : Type} [Inhabited α] (l : List α) (idx : Nat)
    (h : idx < l.length) : l.getD idx default ∈ l := by
  rw [List.getD_eq_getElem?_getD, List.getElem?_eq_getElem h]
  exact List.getElem_mem h

theorem mem_resolveIndices {rows : List MovieRow} {movie_ids : List Int} {idx : Nat} :
    idx ∈ resolveIndices rows movie_ids ↔
      idx < rows.length ∧ (rows.getD idx default).id ∈ movie_ids := by
  simp [resolveIndices, List.mem_filter, List.mem_range]

/-! Claim theorems. -/

/-- C4: seed ids that resolve to no catalog row are silently dropped: on a
fitted engine, `recommend` with a wholly unresolvable (or empty) seed list
returns `ok []` rather than failing, and in general its output is the same
as with the seed list restricted to the ids actually present in the
catalog. -/
theorem c4_unresolvable_seeds (s : MovieRecommender) (sqrt : ℚ → ℚ)
    (rows : List MovieRow) (hfit : s.df = some rows) (movie_ids : List Int)
    (top_n : Int) (min_score similarity_weight : ℚ) (weights : Option Weights) :
    ((∀ i ∈ movie_ids, ∀ row ∈ rows, row.id ≠ i) →
      s.recommend sqrt movie_ids top_n min_score similarity_weight weights = .ok []) ∧
    s.recommend sqrt movie_ids top_n min_score similarity_weight weights =
      s.recommend sqrt (movie_ids.filter (fun i => decide (∃ row ∈ rows, row.id = i)))
        top_n min_score similarity_weight weights := by
  unfold MovieRecommender.recommend
  rw [hfit]
  dsimp only
  constructor
  · intro hnone
    have hempty : resolveIndices rows movie_ids = [] := by
      rw [List.eq_nil_iff_forall_not_mem]
      intro idx hidx
      rw [mem_resolveIndices] at hidx
      exact hnone _ hidx.2 (rows.getD idx default) (getD_mem_of_lt rows idx hidx.1) rfl
    rw [hempty]
    rfl
  · have hres : resolveIndices rows movie_ids =
        resolveIndices rows (movie_ids.filter (fun i => decide (∃ row ∈ rows, row.id = i))) := by
      unfold resolveIndices
      apply List.filter_congr
      intro idx hidx
      rw [List.mem_range] at hidx
      have hmem := getD_mem_of_lt rows idx hidx
      rw [decide_eq_decide, List.mem_filter]
      constructor
      · intro hid
        exact ⟨hid, decide_eq_true ⟨rows.getD idx default, hmem, rfl⟩⟩
      · intro hid
        exact hid.1
    rw [hres]

/-- C3: on a fitted engine, for a non-empty seed-id set fully resolvable in
the catalog, no element of the `recommend` output carries the id of any
seed item (seed row indices are excluded from candidacy, and every row
whose id is a seed id resolves to a seed index). -/
theorem c3_no_seed_in_output (s : MovieRecommender) (sqrt : ℚ → ℚ)
    (rows : List MovieRow) (hfit : s.df = some rows) (movie_ids : List Int)
    (hne : movie_ids ≠ [])
    (hresolve : ∀ i ∈ movie_ids, ∃ row ∈ rows, row.id = i)
    (top_n : Int) (min_score similarity_weight : ℚ) (weights : Option Weights)
    (res : List RecommenderMovie)
    (h : s.recommend sqrt movie_ids top_n min_score similarity_weight weights = .ok res) :
    ∀ r ∈ res, r.id ∉ movie_ids := by
  unfold MovieRecommender.recommend at h
  rw [hfit, Except.ok.injEq] at h
  subst h
  unfold recommendFitted
  by_cases hin : resolveIndices rows movie_ids = []
  · rw [if_pos hin]
    intro r hr
    cases hr
  · rw [if_neg hin]
    intro r hr hrid
    rw [List.mem_map] at hr
    obtain ⟨p, hp, rfl⟩ := hr
    have hc := mem_candidateList (mem_candPipeline hp)
    have hseed : p.1 ∈ resolveIndices rows movie_ids :=
      mem_resolveIndices.mpr ⟨hc.1, hrid⟩
    exact hc.2.1 hseed

/-- C2 (amended): on a fitted engine all of whose popularity scores are
numeric (the `MovieRow` model: no NaN in the `wr_normalized` column) and a
query with `top_n ≥ 1`, the `recommend` output has length at most `top_n`,
and it is the image (under result formatting) of a candidate list that is
sorted by final blended score in descending order with ties in ascending
catalog row index (`candOrder`).  On a fitted engine with a NaN popularity
score the descending order fails — see the NaN-aware model and the C2
counterexample below. -/
theorem c2_output_sorted_bounded (s : MovieRecommender) (sqrt : ℚ → ℚ)
    (rows : List MovieRow) (hfit : s.df = some rows) (movie_ids : List Int)
    (top_n : Int) (htop : 1 ≤ top_n) (min_score similarity_weight : ℚ)
    (weights : Option Weights) (res : List RecommenderMovie)
    (h : s.recommend sqrt movie_ids top_n min_score similarity_weight weights = .ok res) :
    (res.length : Int) ≤ top_n ∧
      ((resolveIndices rows movie_ids = [] ∧ res = []) ∨
        (res =
            (candPipeline sqrt s.matrices rows (resolveIndices rows movie_ids)
                (weights.getD MovieRecommender.default_weights) similarity_weight
                min_score top_n).map
              (formatResult sqrt s.matrices rows (resolveIndices rows movie_ids)
                (weights.getD MovieRecommender.default_weights) similarity_weight) ∧
          (candPipeline sqrt s.matrices rows (resolveIndices rows movie_ids)
              (weights.getD MovieRecommender.default_weights) similarity_weight
              min_score top_n).Pairwise candOrder)) := by
  unfold MovieRecommender.recommend at h
  rw [hfit, Except.ok.injEq] at h
  subst h
  unfold recommendFitted
  by_cases hin : resolveIndices rows movie_ids = []
  · rw [if_pos hin]
    refine ⟨?_, Or.inl ⟨hin, rfl⟩⟩
    simp only [List.length_nil, Int.ofNat_zero, Nat.cast_zero]
    omega
  · rw [if_neg hin]
    refine ⟨?_, Or.inr ⟨rfl, pairwise_candPipeline _ _ _ _ _ _ _ _⟩⟩
    rw [List.length_map]
    unfold candPipeline
    exact length_pyTake_le (by omega) _

/-- C8: for every engine state and every fixed query, the state obtained by
`load(save(state))` is the original state field by field, and therefore
produces a `recommend` output identical to the output of the original state
for that query. -/
theorem c8_save_load_roundtrip (s : MovieRecommender) (sqrt : ℚ → ℚ)
    (movie_ids : List Int) (top_n : Int) (min_score similarity_weight : ℚ)
    (weights : Option Weights) :
    MovieRecommender.load (MovieRecommender.save s) = s ∧
    (MovieRecommender.load (MovieRecommender.save s)).recommend sqrt movie_ids
        top_n min_score similarity_weight weights =
      s.recommend sqrt movie_ids top_n min_score similarity_weight weights :=
  ⟨rfl, rfl⟩

/-- C9: invoking `recommend` on a state whose `df` field is still `None`
(no fit or snapshot load has completed) fails with the not-fitted error
rather than returning a result. -/
theorem c9_not_fitted (s : MovieRecommender) (sqrt : ℚ → ℚ)
    (movie_ids : List Int) (top_n : Int) (min_score similarity_weight : ℚ)
    (weights : Option Weights) (h : s.df = none) :
    s.recommend sqrt movie_ids top_n min_score similarity_weight weights =
      .error notFittedError := by
  unfold MovieRecommender.recommend
  rw [h]

/-- Unfitted engine state: the field values set in `__init__` before any
fit, as reached by `cls.__new__` in `load` before field assignment. -/
def unfittedState : MovieRecommender :=
  { df := none, matrices := ⟨[], [], []⟩, vectorizers := ⟨[], [], []⟩
    scaler := ⟨none, none⟩, C := none, m := none }

theorem c9_not_fitted_witness :
    MovieRecommender.recommend unfittedState (fun q => q) [1, 2] 20 (1/10) (4/5)
      none = .error notFittedError :=
  c9_not_fitted unfittedState (fun q => q) [1, 2] 20 (1/10) (4/5) none rfl

/-- C10: every request to the POST /recommend handler produces an
exception, never a response: when the engine is unfitted `recommend`
raises, and otherwise `recommend` returns a plain Python list on which the
handler calls `.iterrows()`, raising `AttributeError`; the success path
that builds `MoviePublic` values is unreachable for every engine state and
request body. -/
theorem c10_handler_always_raises (recommender : MovieRecommender)
    (sqrt : ℚ → ℚ) (body : RecommendMoviesRequest) :
    recommend_by_ids recommender sqrt body =
      .error (match recommender.df with
        | none => notFittedError
        | some _ => "AttributeError: list object has no attribute iterrows") := by
  obtain ⟨df, M, V, sc, C, m⟩ := recommender
  cases df
  · rfl
  · rfl

/-! Nonnegativity facts about the similarity pipeline, used for claim C7:
with entrywise-nonnegative TF-IDF matrices (as produced by TF-IDF),
nonnegative weights and popularity scores, and a `similarity_weight` in
`[0, 1]`, every weighted contribution term is nonnegative. -/

/-- Entrywise nonnegativity of a document-term matrix. -/
def matNonneg (M : List (List ℚ)) : Prop := ∀ row ∈ M, ∀ x ∈ row, 0 ≤ x

theorem dot_nonneg : ∀ (u v : List ℚ), (∀ x ∈ u, 0 ≤ x) → (∀ x ∈ v, 0 ≤ x) →
    0 ≤ dot u v
  | [], _, _, _ => by simp [dot]
  | _ :: _, [], _, _ => by simp [dot]
  | a :: u, b :: v, hu, hv => by
    have h1 : 0 ≤ dot u v :=
      dot_nonneg u v (fun x hx => hu x (List.mem_cons_of_mem a hx))
        (fun x hx => hv x (List.mem_cons_of_mem b hx))
    unfold dot
    rw [List.zipWith_cons_cons, List.sum_cons]
    exact add_nonneg
      (mul_nonneg (hu a (List.mem_cons_self a u)) (hv b (List.mem_cons_self b v))) h1

theorem sumSq_nonneg : ∀ (v : List ℚ), 0 ≤ sumSq v
  | [] => by simp [sumSq, dot]
  | a :: v => by
    have h1 := sumSq_nonneg v
    unfold sumSq dot at h1 ⊢
    rw [List.zipWith_cons_cons, List.sum_cons]
    exact add_nonneg (mul_self_nonneg a) h1

theorem addVec_nonneg : ∀ (u v : List ℚ), (∀ x ∈ u, 0 ≤ x) → (∀ x ∈ v, 0 ≤ x) →
    ∀ x ∈ addVec u v, 0 ≤ x
  | [], _, _, _ => by simp [addVec]
  | _ :: _, [], _, _ => by simp [addVec]
  | a :: u, b :: v, hu, hv => by
    unfold addVec
    rw [List.zipWith_cons_cons]
    intro x hx
    rcases List.mem_cons.mp hx with rfl | hx2
    · exact add_nonneg (hu a (List.mem_cons_self a u)) (hv b (List.mem_cons_self b v))
    · exact addVec_nonneg u v (fun y hy => hu y (List.mem_cons_of_mem a hy))
        (fun y hy => hv y (List.mem_cons_of_mem b hy)) x hx2

theorem foldl_addVec_nonneg : ∀ (rs : List (List ℚ)) (acc : List ℚ),
    (∀ r ∈ rs, ∀ x ∈ r, 0 ≤ x) → (∀ x ∈ acc, 0 ≤ x) →
    ∀ x ∈ rs.foldl addVec acc, 0 ≤ x
  | [], _, _, hacc => by simpa using hacc
  | r :: rs, acc, hrs, hacc => by
    rw [List.foldl_cons]
    exact foldl_addVec_nonneg rs (addVec acc r)
      (fun s hs => hrs s (List.mem_cons_of_mem r hs))
      (addVec_nonneg acc r hacc (hrs r (List.mem_cons_self r rs)))

theorem meanRows_nonneg (rs : List (List ℚ)) (h : ∀ r ∈ rs, ∀ x ∈ r, 0 ≤ x) :
    ∀ x ∈ meanRows rs, 0 ≤ x := by
  cases rs with
  | nil => simp [meanRows]
  | cons v vs =>
    rw [meanRows]
    intro x hx
    rw [List.mem_map] at hx
    obtain ⟨y, hy, rfl⟩ := hx
    have hy0 : 0 ≤ y := foldl_addVec_nonneg vs v
      (fun r hr => h r (List.mem_cons_of_mem v hr)) (h v (List.mem_cons_self v vs)) y hy
    have hden : (0 : ℚ) ≤ (vs.length : ℚ) + 1 := by positivity
    exact div_nonneg hy0 hden

theorem getD_mem_of_lt' {α : Type} (l : List α) (d : α) (idx : Nat)
    (h : idx < l.length) : l.getD idx d ∈ l := by
  rw [List.getD_eq_getElem?_getD, List.getElem?_eq_getElem h]
  exact List.getElem_mem h

theorem matRow_nonneg {M : List (List ℚ)} (hM : matNonneg M) (idx : Nat) :
    ∀ x ∈ matRow M idx, 0 ≤ x := by
  unfold matRow
  by_cases h : idx < M.length
  · exact hM _ (getD_mem_of_lt' M [] idx h)
  · rw [List.getD_eq_default _ _ (not_lt.mp h)]
    simp

theorem userProfile_nonneg {M : List (List ℚ)} (hM : matNonneg M)
    (input_indices : List Nat) : ∀ x ∈ userProfile M input_indices, 0 ≤ x := by
  unfold userProfile
  apply meanRows_nonneg
  intro r hr
  rw [List.mem_map] at hr
  obtain ⟨i, _, rfl⟩ := hr
  exact matRow_nonneg hM i

theorem safeNorm_pos {sqrt : ℚ → ℚ} (hsqrt : ∀ q, 0 ≤ q → 0 ≤ sqrt q)
    (v : List ℚ) : 0 < safeNorm sqrt v := by
  unfold safeNorm
  by_cases h : sqrt (sumSq v) = 0
  · rw [if_pos h]; norm_num
  · rw [if_neg h]
    exact lt_of_le_of_ne (hsqrt _ (sumSq_nonneg v)) (Ne.symm h)

theorem simScore_nonneg {sqrt : ℚ → ℚ} (hsqrt : ∀ q, 0 ≤ q → 0 ≤ sqrt q)
    {M : List (List ℚ)} (hM : matNonneg M) (input_indices : List Nat) (idx : Nat) :
    0 ≤ simScore sqrt M input_indices idx := by
  unfold simScore cosineSim
  apply div_nonneg
  · exact dot_nonneg _ _ (userProfile_nonneg hM input_indices) (matRow_nonneg hM idx)
  · exact (mul_pos (safeNorm_pos hsqrt _) (safeNorm_pos hsqrt _)).le

theorem popScore_nonneg {rows : List MovieRow}
    (hpop : ∀ row ∈ rows, 0 ≤ row.wr_normalized) (idx : Nat) :
    0 ≤ popScore rows idx := by
  unfold popScore
  by_cases h : idx < rows.length
  · exact hpop _ (getD_mem_of_lt' rows default idx h)
  · rw [List.getD_eq_default _ _ (not_lt.mp h)]
    exact le_refl 0

theorem pyRound_zero (d : Nat) : pyRound 0 d = 0 := by
  unfold pyRound
  norm_num

/-- C7: on a fitted engine queried with nonnegative per-column weights, a
`similarity_weight` in `[0, 1]`, entrywise-nonnegative TF-IDF matrices and
nonnegative popularity scores, every surviving candidate whose final
blended score is `≤ 0` is formatted with divisor `1` in place of the final
score, and all four of its reported contribution percentages are `0`. -/
theorem c7_nonpositive_contributions (s : MovieRecommender) (sqrt : ℚ → ℚ)
    (rows : List MovieRow) (hfit : s.df = some rows) (movie_ids : List Int)
    (top_n : Int) (min_score similarity_weight : ℚ) (weights : Option Weights)
    (hsqrt : ∀ q, 0 ≤ q → 0 ≤ sqrt q)
    (hMov : matNonneg s.matrices.overview) (hMge : matNonneg s.matrices.genres)
    (hMkw : matNonneg s.matrices.keywords)
    (hwov : 0 ≤ (weights.getD MovieRecommender.default_weights).overview)
    (hwge : 0 ≤ (weights.getD MovieRecommender.default_weights).genres)
    (hwkw : 0 ≤ (weights.getD MovieRecommender.default_weights).keywords)
    (hsw0 : 0 ≤ similarity_weight) (hsw1 : similarity_weight ≤ 1)
    (hpop : ∀ row ∈ rows, 0 ≤ row.wr_normalized)
    (res : List RecommenderMovie)
    (h : s.recommend sqrt movie_ids top_n min_score similarity_weight weights = .ok res)
    (hne : resolveIndices rows movie_ids ≠ [])
    (p : Nat × ℚ)
    (hp : p ∈ candPipeline sqrt s.matrices rows (resolveIndices rows movie_ids)
        (weights.getD MovieRecommender.default_weights) similarity_weight min_score top_n)
    (hscore : p.2 ≤ 0) :
    formatResult sqrt s.matrices rows (resolveIndices rows movie_ids)
        (weights.getD MovieRecommender.default_weights) similarity_weight p ∈ res ∧
    safeDivisor p.2 = 1 ∧
    (formatResult sqrt s.matrices rows (resolveIndices rows movie_ids)
        (weights.getD MovieRecommender.default_weights) similarity_weight
        p).column_contribution = ⟨0, 0, 0, 0⟩ := by
  unfold MovieRecommender.recommend at h
  rw [hfit, Except.ok.injEq] at h
  subst h
  have hdiv : safeDivisor p.2 = 1 := by
    unfold safeDivisor
    rw [if_neg (not_lt.mpr hscore)]
  have hc := mem_candidateList (mem_candPipeline hp)
  have hfs := hc.2.2.2
  set w := weights.getD MovieRecommender.default_weights with hwdef
  have hsov : 0 ≤ simScore sqrt s.matrices.overview (resolveIndices rows movie_ids) p.1 :=
    simScore_nonneg hsqrt hMov _ _
  have hsge : 0 ≤ simScore sqrt s.matrices.genres (resolveIndices rows movie_ids) p.1 :=
    simScore_nonneg hsqrt hMge _ _
  have hskw : 0 ≤ simScore sqrt s.matrices.keywords (resolveIndices rows movie_ids) p.1 :=
    simScore_nonneg hsqrt hMkw _ _
  have hspop : 0 ≤ popScore rows p.1 := popScore_nonneg hpop p.1
  have hcov : 0 ≤ simScore sqrt s.matrices.overview (resolveIndices rows movie_ids) p.1 *
      w.overview * similarity_weight := by positivity
  have hcge : 0 ≤ simScore sqrt s.matrices.genres (resolveIndices rows movie_ids) p.1 *
      w.genres * similarity_weight := by positivity
  have hckw : 0 ≤ simScore sqrt s.matrices.keywords (resolveIndices rows movie_ids) p.1 *
      w.keywords * similarity_weight := by positivity
  have hcpop : 0 ≤ popScore rows p.1 * (1 - similarity_weight) := by
    have h1 : (0 : ℚ) ≤ 1 - similarity_weight := by linarith
    positivity
  have hsum : simScore sqrt s.matrices.overview (resolveIndices rows movie_ids) p.1 *
        w.overview * similarity_weight +
      simScore sqrt s.matrices.genres (resolveIndices rows movie_ids) p.1 *
        w.genres * similarity_weight +
      simScore sqrt s.matrices.keywords (resolveIndices rows movie_ids) p.1 *
        w.keywords * similarity_weight +
      popScore rows p.1 * (1 - similarity_weight) = p.2 := by
    rw [hfs]
    unfold finalScore contentScore
    ring
  have hzov : simScore sqrt s.matrices.overview (resolveIndices rows movie_ids) p.1 *
      w.overview * similarity_weight = 0 := by linarith
  have hzge : simScore sqrt s.matrices.genres (resolveIndices rows movie_ids) p.1 *
      w.genres * similarity_weight = 0 := by linarith
  have hzkw : simScore sqrt s.matrices.keywords (resolveIndices rows movie_ids) p.1 *
      w.keywords * similarity_weight = 0 := by linarith
  have hzpop : popScore rows p.1 * (1 - similarity_weight) = 0 := by linarith
  refine ⟨?_, hdiv, ?_⟩
  · unfold recommendFitted
    rw [if_neg hne]
    exact List.mem_map_of_mem _ hp
  · unfold formatResult mkContributions
    simp only
    rw [hdiv, hzov, hzge, hzkw, hzpop]
    norm_num [pyRound_zero]

/-! Concrete fitted test state used by witnesses and counterexamples.  All
TF-IDF rows are unit basis vectors, so every vector norm that occurs during
evaluation is 0 or 1, where the identity stand-in for the square root
agrees with the real square root. -/

/-- Identity stand-in for the square root: correct on the inputs 0 and 1,
the only norms arising in the concrete test states below. -/
def sqrtId : ℚ → ℚ := fun q => q

def testMat : List (List ℚ) := [[1, 0], [0, 1], [1, 0]]

def testRows : List MovieRow :=
  [ { id := 1, title := "A", overview := "", genres := "", keywords := ""
      vote_average := some 8, vote_count := 100, wr_normalized := 1/2 }
  , { id := 2, title := "B", overview := "", genres := "", keywords := ""
      vote_average := some 6, vote_count := 50, wr_normalized := 1/4 }
  , { id := 3, title := "C", overview := "", genres := "", keywords := ""
      vote_average := some 7, vote_count := 10, wr_normalized := 0 } ]

def testState : MovieRecommender :=
  { df := some testRows
    matrices := { overview := testMat, genres := testMat, keywords := testMat }
    vectorizers := ⟨[], [], []⟩, scaler := ⟨some 0, some 1⟩
    C := some 7, m := some 95 }

/-- C1 (amended): an invocation of `recommend` that does not explicitly
supply `min_score` uses the signature default `0.1` (not `0`), so every
candidate surviving into the output has final blended score at least
`0.1` — candidates with a smaller positive score are filtered out. -/
theorem c1_amended_default_min_score (s : MovieRecommender) (sqrt : ℚ → ℚ)
    (rows : List MovieRow) (hfit : s.df = some rows) (movie_ids : List Int)
    (top_n : Int) (similarity_weight : ℚ) (weights : Option Weights)
    (res : List RecommenderMovie)
    (h : s.recommend sqrt movie_ids top_n MovieRecommender.default_min_score
        similarity_weight weights = .ok res) :
    MovieRecommender.default_min_score = 1/10 ∧
    ∀ p ∈ candPipeline sqrt s.matrices rows (resolveIndices rows movie_ids)
        (weights.getD MovieRecommender.default_weights) similarity_weight
        MovieRecommender.default_min_score top_n, 1/10 ≤ p.2 := by
  refine ⟨rfl, ?_⟩
  intro p hp
  have hc := (mem_candidateList (mem_candPipeline hp)).2.2.1
  rw [not_lt] at hc
  exact hc

/-- Counterexample to C1 as stated: on a fitted engine with a candidate of
positive final score `1/20`, the invocation that leaves `min_score` at its
default returns only the high-scoring candidate, while the same invocation
with threshold `0` returns the `1/20` candidate as well — so the default
threshold is not `0` and a candidate is filtered out by its final score. -/
theorem c1_counterexample :
    MovieRecommender.recommend testState sqrtId [1] MovieRecommender.default_top_n
        MovieRecommender.default_min_score MovieRecommender.default_similarity_weight
        none =
      .ok [ { id := 3, relevance_score := 4/5
              column_contribution := ⟨20, 40, 40, 0⟩ } ] ∧
    MovieRecommender.recommend testState sqrtId [1] MovieRecommender.default_top_n 0
        MovieRecommender.default_similarity_weight none =
      .ok [ { id := 3, relevance_score := 4/5, column_contribution := ⟨20, 40, 40, 0⟩ }
          , { id := 2, relevance_score := 1/20, column_contribution := ⟨0, 0, 0, 100⟩ } ] ∧
    MovieRecommender.default_min_score = 1/10 := by
  refine ⟨?_, ?_, rfl⟩ <;>
    norm_num [MovieRecommender.recommend, recommendFitted, candPipeline, candidateList,
      sortCand, insertCand, pyTake, formatResult, mkContributions, safeDivisor, pyRound,
      finalScore, contentScore, simScore, cosineSim, safeNorm, sumSq, dot, userProfile,
      meanRows, addVec, matRow, popScore, resolveIndices,
      MovieRecommender.default_weights, MovieRecommender.default_top_n,
      MovieRecommender.default_min_score, MovieRecommender.default_similarity_weight,
      testState, testRows, testMat, sqrtId, List.range_succ, List.filter_cons]

theorem c1_amended_witness :
    MovieRecommender.default_min_score = 1/10 ∧ (1/10 : ℚ) ≤ 4/5 := by
  have h := c1_amended_default_min_score testState sqrtId testRows rfl [1] 20 (4/5)
    none [{ id := 3, relevance_score := 4/5, column_contribution := ⟨20, 40, 40, 0⟩ }]
    (by norm_num [MovieRecommender.recommend, recommendFitted, candPipeline,
      candidateList, sortCand, insertCand, pyTake, formatResult, mkContributions,
      safeDivisor, pyRound, finalScore, contentScore, simScore, cosineSim, safeNorm,
      sumSq, dot, userProfile, meanRows, addVec, matRow, popScore, resolveIndices,
      MovieRecommender.default_weights, MovieRecommender.default_min_score,
      testState, testRows, testMat, sqrtId, List.range_succ, List.filter_cons])
  refine ⟨h.1, ?_⟩
  have hpipe : candPipeline sqrtId testState.matrices testRows
      (resolveIndices testRows [1])
      ((none : Option Weights).getD MovieRecommender.default_weights) (4/5)
      MovieRecommender.default_min_score 20 = [((2 : Nat), (4/5 : ℚ))] := by
    norm_num [candPipeline, candidateList, sortCand, insertCand, pyTake, finalScore,
      contentScore, simScore, cosineSim, safeNorm, sumSq, dot, userProfile, meanRows,
      addVec, matRow, popScore, resolveIndices, MovieRecommender.default_weights,
      MovieRecommender.default_min_score, testState, testRows, testMat, sqrtId,
      List.range_succ, List.filter_cons]
  have hmem : ((2 : Nat), (4/5 : ℚ)) ∈ candPipeline sqrtId testState.matrices testRows
      (resolveIndices testRows [1])
      ((none : Option Weights).getD MovieRecommender.default_weights) (4/5)
      MovieRecommender.default_min_score 20 := by
    rw [hpipe]
    exact List.mem_cons_self _ _
  exact h.2 _ hmem

theorem c2_output_sorted_bounded_witness :
    ((([ { id := 3, relevance_score := 4/5, column_contribution := ⟨20, 40, 40, 0⟩ }
       , { id := 2, relevance_score := 1/20, column_contribution := ⟨0, 0, 0, 100⟩ } ] :
        List RecommenderMovie).length : Int) ≤ 5) ∧
      ((resolveIndices testRows [1] = [] ∧
          ([ { id := 3, relevance_score := 4/5, column_contribution := ⟨20, 40, 40, 0⟩ }
           , { id := 2, relevance_score := 1/20, column_contribution := ⟨0, 0, 0, 100⟩ } ] :
            List RecommenderMovie) = []) ∨
        (([ { id := 3, relevance_score := 4/5, column_contribution := ⟨20, 40, 40, 0⟩ }
          , { id := 2, relevance_score := 1/20, column_contribution := ⟨0, 0, 0, 100⟩ } ] :
            List RecommenderMovie) =
            (candPipeline sqrtId testState.matrices testRows (resolveIndices testRows [1])
                ((none : Option Weights).getD MovieRecommender.default_weights)
                (4/5) 0 5).map
              (formatResult sqrtId testState.matrices testRows (resolveIndices testRows [1])
                ((none : Option Weights).getD MovieRecommender.default_weights) (4/5)) ∧
          (candPipeline sqrtId testState.matrices testRows (resolveIndices testRows [1])
              ((none : Option Weights).getD MovieRecommender.default_weights)
              (4/5) 0 5).Pairwise candOrder)) :=
  c2_output_sorted_bounded testState sqrtId testRows rfl [1] 5 (by norm_num) 0 (4/5)
    none _
    (by norm_num [MovieRecommender.recommend, recommendFitted, candPipeline,
      candidateList, sortCand, insertCand, pyTake, formatResult, mkContributions,
      safeDivisor, pyRound, finalScore, contentScore, simScore, cosineSim, safeNorm,
      sumSq, dot, userProfile, meanRows, addVec, matRow, popScore, resolveIndices,
      MovieRecommender.default_weights, testState, testRows, testMat, sqrtId,
      List.range_succ, List.filter_cons])

theorem c3_no_seed_in_output_witness :
    ({ id := 3, relevance_score := 4/5, column_contribution := ⟨20, 40, 40, 0⟩ } :
      RecommenderMovie).id ∉ ([1] : List Int) := by
  have h := c3_no_seed_in_output testState sqrtId testRows rfl [1] (by simp)
    (by norm_num [testRows]) 5 0 (4/5) none
    [ { id := 3, relevance_score := 4/5, column_contribution := ⟨20, 40, 40, 0⟩ }
    , { id := 2, relevance_score := 1/20, column_contribution := ⟨0, 0, 0, 100⟩ } ]
    (by norm_num [MovieRecommender.recommend, recommendFitted, candPipeline,
      candidateList, sortCand, insertCand, pyTake, formatResult, mkContributions,
      safeDivisor, pyRound, finalScore, contentScore, simScore, cosineSim, safeNorm,
      sumSq, dot, userProfile, meanRows, addVec, matRow, popScore, resolveIndices,
      MovieRecommender.default_weights, testState, testRows, testMat, sqrtId,
      List.range_succ, List.filter_cons])
  exact h _ (List.mem_cons_self _ _)

theorem c4_unresolvable_seeds_witness :
    MovieRecommender.recommend testState sqrtId [99] 5 (1/10) (4/5) none = .ok [] :=
  (c4_unresolvable_seeds testState sqrtId testRows rfl [99] 5 (1/10) (4/5) none).1
    (by norm_num [testRows])

/-- Fitted test state in which the only candidate has final score exactly
`0`: its matrix row is orthogonal to the seed row and its popularity score
is `0`. -/
def c7Mat : List (List ℚ) := [[1, 0], [0, 1]]

def c7Rows : List MovieRow :=
  [ { id := 1, title := "A", overview := "", genres := "", keywords := ""
      vote_average := some 8, vote_count := 100, wr_normalized := 0 }
  , { id := 2, title := "B", overview := "", genres := "", keywords := ""
      vote_average := some 6, vote_count := 50, wr_normalized := 0 } ]

def c7State : MovieRecommender :=
  { df := some c7Rows
    matrices := { overview := c7Mat, genres := c7Mat, keywords := c7Mat }
    vectorizers := ⟨[], [], []⟩, scaler := ⟨some 0, some 0⟩
    C := some 7, m := some 95 }

theorem c7_nonpositive_contributions_witness :
    formatResult sqrtId c7State.matrices c7Rows (resolveIndices c7Rows [1])
        ((none : Option Weights).getD MovieRecommender.default_weights) (4/5)
        (1, 0) ∈
      [({ id := 2, relevance_score := 0, column_contribution := ⟨0, 0, 0, 0⟩ } :
        RecommenderMovie)] ∧
    safeDivisor ((1 : Nat), (0 : ℚ)).2 = 1 ∧
    (formatResult sqrtId c7State.matrices c7Rows (resolveIndices c7Rows [1])
        ((none : Option Weights).getD MovieRecommender.default_weights) (4/5)
        (1, 0)).column_contribution = ⟨0, 0, 0, 0⟩ :=
  c7_nonpositive_contributions c7State sqrtId c7Rows rfl [1] 5 0 (4/5) none
    (fun _ hq => hq)
    (by norm_num [matNonneg, c7State, c7Mat])
    (by norm_num [matNonneg, c7State, c7Mat])
    (by norm_num [matNonneg, c7State, c7Mat])
    (by norm_num [MovieRecommender.default_weights])
    (by norm_num [MovieRecommender.default_weights])
    (by norm_num [MovieRecommender.default_weights])
    (by norm_num) (by norm_num)
    (by norm_num [c7Rows])
    [{ id := 2, relevance_score := 0, column_contribution := ⟨0, 0, 0, 0⟩ }]
    (by norm_num [MovieRecommender.recommend, recommendFitted, candPipeline,
      candidateList, sortCand, insertCand, pyTake, formatResult, mkContributions,
      safeDivisor, pyRound, finalScore, contentScore, simScore, cosineSim, safeNorm,
      sumSq, dot, userProfile, meanRows, addVec, matRow, popScore, resolveIndices,
      MovieRecommender.default_weights, c7State, c7Rows, c7Mat, sqrtId,
      List.range_succ, List.filter_cons])
    (by norm_num [resolveIndices, c7Rows, List.range_succ, List.filter_cons])
    (1, 0)
    (by
      have hpipe : candPipeline sqrtId c7State.matrices c7Rows
          (resolveIndices c7Rows [1])
          ((none : Option Weights).getD MovieRecommender.default_weights) (4/5) 0 5 =
          [((1 : Nat), (0 : ℚ))] := by
        norm_num [candPipeline, candidateList, sortCand, insertCand, pyTake,
          finalScore, contentScore, simScore, cosineSim, safeNorm, sumSq, dot,
          userProfile, meanRows, addVec, matRow, popScore, resolveIndices,
          MovieRecommender.default_weights, c7State, c7Rows, c7Mat, sqrtId,
          List.range_succ, List.filter_cons]
      rw [hpipe]
      exact List.mem_cons_self _ _)
    (le_refl 0)

/-! Lemmas about the popularity scorer (claims C5 and C6). -/

theorem foldl_min_le_mem : ∀ (xs : List ℚ) (acc : ℚ),
    xs.foldl min acc ≤ acc ∧ ∀ y ∈ xs, xs.foldl min acc ≤ y
  | [], acc => ⟨le_refl acc, by simp⟩
  | z :: zs, acc => by
    rw [List.foldl_cons]
    obtain ⟨h1, h2⟩ := foldl_min_le_mem zs (min acc z)
    refine ⟨h1.trans (min_le_left acc z), ?_⟩
    intro y hy
    rcases List.mem_cons.mp hy with rfl | hy2
    · exact h1.trans (min_le_right acc y)
    · exact h2 y hy2

theorem foldl_max_ge_mem : ∀ (xs : List ℚ) (acc : ℚ),
    acc ≤ xs.foldl max acc ∧ ∀ y ∈ xs, y ≤ xs.foldl max acc
  | [], acc => ⟨le_refl acc, by simp⟩
  | z :: zs, acc => by
    rw [List.foldl_cons]
    obtain ⟨h1, h2⟩ := foldl_max_ge_mem zs (max acc z)
    refine ⟨(le_max_left acc z).trans h1, ?_⟩
    intro y hy
    rcases List.mem_cons.mp hy with rfl | hy2
    · exact (le_max_right acc y).trans h1
    · exact h2 y hy2

theorem listMin_le {l : List ℚ} {lo : ℚ} (h : listMin l = some lo) :
    ∀ y ∈ l, lo ≤ y := by
  cases l with
  | nil => cases h
  | cons x xs =>
    rw [listMin, Option.some.injEq] at h
    subst h
    intro y hy
    rcases List.mem_cons.mp hy with rfl | hy2
    · exact (foldl_min_le_mem xs y).1
    · exact (foldl_min_le_mem xs x).2 y hy2

theorem le_listMax {l : List ℚ} {hi : ℚ} (h : listMax l = some hi) :
    ∀ y ∈ l, y ≤ hi := by
  cases l with
  | nil => cases h
  | cons x xs =>
    rw [listMax, Option.some.injEq] at h
    subst h
    intro y hy
    rcases List.mem_cons.mp hy with rfl | hy2
    · exact (foldl_max_ge_mem xs y).1
    · exact (foldl_max_ge_mem xs x).2 y hy2

theorem foldl_min_const : ∀ (xs : List ℚ) (w : ℚ), (∀ y ∈ xs, y = w) →
    xs.foldl min w = w
  | [], _, _ => rfl
  | z :: zs, w, h => by
    have hz : z = w := h z (List.mem_cons_self z zs)
    subst hz
    rw [List.foldl_cons, min_self]
    exact foldl_min_const zs z (fun y hy => h y (List.mem_cons_of_mem z hy))

theorem foldl_max_const : ∀ (xs : List ℚ) (w : ℚ), (∀ y ∈ xs, y = w) →
    xs.foldl max w = w
  | [], _, _ => rfl
  | z :: zs, w, h => by
    have hz : z = w := h z (List.mem_cons_self z zs)
    subst hz
    rw [List.foldl_cons, max_self]
    exact foldl_max_const zs z (fun y hy => h y (List.mem_cons_of_mem z hy))

theorem listMin_const {l : List ℚ} {w : ℚ} (hne : l ≠ []) (h : ∀ y ∈ l, y = w) :
    listMin l = some w := by
  cases l with
  | nil => exact absurd rfl hne
  | cons x xs =>
    have hx : x = w := h x (List.mem_cons_self x xs)
    subst hx
    rw [listMin, Option.some.injEq]
    exact foldl_min_const xs x (fun y hy => h y (List.mem_cons_of_mem x hy))

theorem listMax_const {l : List ℚ} {w : ℚ} (hne : l ≠ []) (h : ∀ y ∈ l, y = w) :
    listMax l = some w := by
  cases l with
  | nil => exact absurd rfl hne
  | cons x xs =>
    have hx : x = w := h x (List.mem_cons_self x xs)
    subst hx
    rw [listMax, Option.some.injEq]
    exact foldl_max_const xs x (fun y hy => h y (List.mem_cons_of_mem x hy))

theorem minMaxFitTransform_unit (xs : List (Option ℚ)) :
    ∀ x ∈ minMaxFitTransform xs, ∀ q : ℚ, x = some q → 0 ≤ q ∧ q ≤ 1 := by
  unfold minMaxFitTransform
  cases hmin : listMin (xs.filterMap id) with
  | none =>
    intro x hx q hq
    rw [List.mem_map] at hx
    obtain ⟨y, _, rfl⟩ := hx
    cases hq
  | some lo =>
    cases hmax : listMax (xs.filterMap id) with
    | none =>
      intro x hx q hq
      rw [List.mem_map] at hx
      obtain ⟨y, _, rfl⟩ := hx
      cases hq
    | some hi =>
      intro x hx q hq
      rw [List.mem_map] at hx
      obtain ⟨y, hy, rfl⟩ := hx
      cases y with
      | none => cases hq
      | some v =>
        rw [Option.map_some', Option.some.injEq] at hq
        subst hq
        have hv : v ∈ xs.filterMap id := by
          rw [List.mem_filterMap]
          exact ⟨some v, hy, rfl⟩
        have hlov := listMin_le hmin v hv
        have hvhi := le_listMax hmax v hv
        by_cases hz : hi - lo = 0
        · rw [if_pos hz]
          have hvlo : v = lo := le_antisymm (by linarith) hlov
          subst hvlo
          norm_num
        · rw [if_neg hz]
          have hlt : 0 < hi - lo := lt_of_le_of_ne (by linarith) (Ne.symm hz)
          constructor
          · exact div_nonneg (by linarith) hlt.le
          · rw [div_le_one hlt]
            linarith

theorem minMaxFitTransform_const (xs : List (Option ℚ)) (w : ℚ)
    (h : ∀ y ∈ xs, y = some w) : ∀ x ∈ minMaxFitTransform xs, x = some 0 := by
  cases xs with
  | nil => simp [minMaxFitTransform, listMin, listMax]
  | cons y ys =>
    have hy : y = some w := h y (List.mem_cons_self y ys)
    subst hy
    have hallw : ∀ v ∈ (some w :: ys).filterMap id, v = w := by
      intro v hv
      rw [List.mem_filterMap] at hv
      obtain ⟨o, ho, hid⟩ := hv
      have how := h o ho
      subst how
      exact (Option.some.injEq _ _).mp hid |>.symm ▸ rfl
    have hne : (some w :: ys).filterMap id ≠ [] := by
      have hw : w ∈ (some w :: ys).filterMap id := by
        rw [List.mem_filterMap]
        exact ⟨some w, List.mem_cons_self _ _, rfl⟩
      intro hempty
      rw [hempty] at hw
      cases hw
    unfold minMaxFitTransform
    rw [listMin_const hne hallw, listMax_const hne hallw]
    intro x hx
    rw [List.mem_map] at hx
    obtain ⟨z, hz, rfl⟩ := hx
    have hzw := h z hz
    subst hzw
    norm_num

theorem length_minMaxFitTransform (xs : List (Option ℚ)) :
    (minMaxFitTransform xs).length = xs.length := by
  unfold minMaxFitTransform
  cases listMin (xs.filterMap id) with
  | none => rw [List.length_map]
  | some lo =>
    cases listMax (xs.filterMap id) with
    | none => rw [List.length_map]
    | some hi => rw [List.length_map]

/-- C5: at fit time, `C` is the mean of the present `vote_average` values
(missing ones excluded from both sum and count), `m` is the pandas 0.95
quantile of `vote_count`, and the weighted-rating column holds `0` for a
row with `vote_count = 0` and `(v/(v+m))*R + (m/(v+m))*C` for a row with
`vote_count = v ≠ 0` and present `vote_average = R`. -/
theorem c5_popularity_fit_formulas (rows : List VoteRow)
    (hpresent : (rows.map VoteRow.vote_average).filterMap id ≠ []) :
    (calculatePopularity rows).C =
      some (((rows.map VoteRow.vote_average).filterMap id).sum /
        (((rows.map VoteRow.vote_average).filterMap id).length : ℚ)) ∧
    (calculatePopularity rows).m =
      pandasQuantile (95/100) (rows.map VoteRow.vote_count) ∧
    ∀ i : Nat, ∀ hi : i < rows.length,
      (rows[i].vote_count = 0 →
        (calculatePopularity rows).weighted_rating.getD i none = some 0) ∧
      (∀ R mv Cv : ℚ, rows[i].vote_average = some R →
        (calculatePopularity rows).m = some mv →
        (calculatePopularity rows).C = some Cv →
        rows[i].vote_count ≠ 0 →
        (calculatePopularity rows).weighted_rating.getD i none =
          some (rows[i].vote_count / (rows[i].vote_count + mv) * R +
            mv / (rows[i].vote_count + mv) * Cv)) := by
  refine ⟨?_, rfl, ?_⟩
  · show pandasMean (rows.map VoteRow.vote_average) = _
    unfold pandasMean
    rw [if_neg (fun hc => hpresent (List.length_eq_zero.mp hc))]
  · intro i hi
    have hget : (calculatePopularity rows).weighted_rating.getD i none =
        weightedRating (calculatePopularity rows).m (calculatePopularity rows).C
          rows[i] := by
      show (rows.map (weightedRating _ _)).getD i none = _
      rw [List.getD_eq_getElem?_getD, List.getElem?_map, List.getElem?_eq_getElem hi]
      rw [Option.map_some', Option.getD_some]
      rfl
    constructor
    · intro hv0
      rw [hget]
      unfold weightedRating
      rw [if_pos hv0]
    · intro R mv Cv hva hm hC hv
      rw [hget]
      unfold weightedRating
      rw [if_neg hv, hva, hm, hC]
      rfl

/-- C6 (amended): every popularity score that is a number (the weighted
rating of its row was defined) lies in `[0, 1]`, and when every item has
the same defined weighted rating the min-max normalization produces the
score `0` for every item rather than dividing by zero; a row with missing
`vote_average` and nonzero `vote_count`, however, receives a NaN weighted
rating and hence a NaN normalized score, which is outside `[0, 1]`. -/
theorem c6_popularity_normalized (rows : List VoteRow) :
    (∀ x ∈ (calculatePopularity rows).wr_normalized, ∀ q : ℚ, x = some q →
      0 ≤ q ∧ q ≤ 1) ∧
    (∀ w : ℚ, (∀ y ∈ (calculatePopularity rows).weighted_rating, y = some w) →
      ∀ x ∈ (calculatePopularity rows).wr_normalized, x = some 0) := by
  constructor
  · exact minMaxFitTransform_unit _
  · intro w hw
    exact minMaxFitTransform_const _ w hw

/-- Counterexample to C6 as stated: on the one-item catalog whose item has
a missing `vote_average` and `vote_count = 1`, the weighted rating is NaN
and the normalized popularity score is NaN — not a value in `[0, 1]`. -/
theorem c6_counterexample :
    (calculatePopularity [⟨none, 1⟩]).wr_normalized = [none] ∧
      ¬ scoreInUnit none := by
  constructor
  · norm_num [calculatePopularity, pandasMean, pandasQuantile, sortQ, weightedRating,
      minMaxFitTransform, listMin, listMax, List.insertionSort, List.orderedInsert]
  · simp [scoreInUnit]

theorem c5_popularity_fit_formulas_witness :
    (calculatePopularity [⟨some 8, 0⟩, ⟨some 6, 2⟩, ⟨none, 3⟩]).C = some 7 ∧
    (calculatePopularity [⟨some 8, 0⟩, ⟨some 6, 2⟩, ⟨none, 3⟩]).weighted_rating.getD
      0 none = some 0 := by
  have h := c5_popularity_fit_formulas [⟨some 8, 0⟩, ⟨some 6, 2⟩, ⟨none, 3⟩]
    (by simp [List.filterMap_cons])
  constructor
  · rw [h.1]
    norm_num [List.filterMap_cons]
  · have h3 := h.2.2 0 (by norm_num)
    exact h3.1 rfl

theorem length_wr_normalized (rows : List VoteRow) :
    (calculatePopularity rows).wr_normalized.length = rows.length := by
  simp only [calculatePopularity]
  rw [length_minMaxFitTransform, List.length_map]

theorem c6_popularity_normalized_witness :
    (calculatePopularity [⟨some 5, 1⟩, ⟨some 5, 1⟩]).wr_normalized.getD 0 none =
      some 0 := by
  have h := c6_popularity_normalized [⟨some 5, 1⟩, ⟨some 5, 1⟩]
  have hwr : (calculatePopularity [⟨some 5, 1⟩, ⟨some 5, 1⟩]).weighted_rating =
      [some 5, some 5] := by
    norm_num [calculatePopularity, pandasMean, pandasQuantile, sortQ, weightedRating,
      List.insertionSort, List.orderedInsert, List.filterMap_cons]
  have hsame : ∀ y ∈ (calculatePopularity [⟨some 5, 1⟩, ⟨some 5, 1⟩]).weighted_rating,
      y = some 5 := by
    rw [hwr]
    simp
  have hlen : 0 < (calculatePopularity [⟨some 5, 1⟩, ⟨some 5, 1⟩]).wr_normalized.length := by
    rw [length_wr_normalized]
    norm_num
  exact h.2 5 hsame _ (getD_mem_of_lt' _ none 0 hlen)

/-! NaN-aware model of the fitted `recommend` path, used to settle claim C2
on the fitted engines the primary `ℚ`-typed model excludes.  A real fit over
a catalog containing a row with missing `vote_average` and nonzero
`vote_count` stores NaN in the `wr_normalized` column (exactly the
situation of the C6 counterexample), and that NaN flows into the final
scores `recommend` filters, sorts and returns.  Scores are carried as
`Option ℚ` with `none` for NaN. -/

/-- Python float comparison `x < y`: every comparison with a NaN operand is
`False`. -/
def pyLt : Option ℚ → Option ℚ → Bool
  | some a, some b => decide (a < b)
  | _, _ => false

/-- Catalog row of the NaN-aware model, restricted to the columns the
scoring path reads: the `id` column and the possibly-NaN `wr_normalized`
column. -/
structure MovieRowN where
  id : Int
  wr_normalized : Option ℚ
deriving DecidableEq, Inhabited

/-- Engine state of the NaN-aware model: the fitted DataFrame and the
TF-IDF matrices (whose entries are always numeric). -/
structure MovieRecommenderN where
  df : Option (List MovieRowN)
  matrices : Matrices
deriving DecidableEq

/-- Seed resolution, as in `resolveIndices`. -/
def resolveIndicesN (rows : List MovieRowN) (movie_ids : List Int) : List Nat :=
  (List.range rows.length).filter
    (fun idx => decide ((rows.getD idx default).id ∈ movie_ids))

/-- `pop_scores[idx]` of the NaN-aware model. -/
def popScoreN (rows : List MovieRowN) (idx : Nat) : Option ℚ :=
  (rows.getD idx default).wr_normalized

/-- `final_scores[idx]` of the NaN-aware model: the content part is always
numeric (TF-IDF and the weights are numbers), and IEEE arithmetic with a
NaN operand yields NaN, so the final score is NaN exactly when the
popularity score is. -/
def finalScoreN (sqrt : ℚ → ℚ) (M : Matrices) (rows : List MovieRowN)
    (input_indices : List Nat) (w : Weights) (similarity_weight : ℚ)
    (idx : Nat) : Option ℚ :=
  (popScoreN rows idx).map (fun pop =>
    contentScore sqrt M input_indices w idx * similarity_weight +
      pop * (1 - similarity_weight))

/-- The candidate loop of `recommend` over possibly-NaN scores: a NaN final
score survives the `score < min_score` filter, because the comparison is
`False`. -/
def candidateListN (sqrt : ℚ → ℚ) (M : Matrices) (rows : List MovieRowN)
    (input_indices : List Nat) (w : Weights)
    (similarity_weight min_score : ℚ) : List (Nat × Option ℚ) :=
  ((List.range rows.length).filter (fun idx =>
      decide (idx ∉ input_indices) &&
      !(pyLt (finalScoreN sqrt M rows input_indices w similarity_weight idx)
          (some min_score)))).map
    (fun idx => (idx, finalScoreN sqrt M rows input_indices w similarity_weight idx))

/-! CPython `list.sort` for fewer than 64 elements (`listobject.c`): find
the initial run with `count_run` (reversing it when strictly descending),
then extend it over the whole list with binary insertion (`binarysort`);
`reverse=True` is realized by reversing the list before and after the
stable forward sort.  With a `key=` function only the keys are compared. -/

def countRunAsc {α : Type} (lt : α → α → Bool) : α → List α → Nat
  | _, [] => 0
  | prev, x :: xs => if lt x prev then 0 else 1 + countRunAsc lt x xs

def countRunDesc {α : Type} (lt : α → α → Bool) : α → List α → Nat
  | _, [] => 0
  | prev, x :: xs => if lt x prev then 1 + countRunDesc lt x xs else 0

/-- `count_run`: length of the maximal initial run and whether it is a
(strictly) descending one. -/
def countRun {α : Type} (lt : α → α → Bool) : List α → Nat × Bool
  | [] => (0, false)
  | [_] => (1, false)
  | a :: b :: rest =>
    if lt b a then (2 + countRunDesc lt b rest, true)
    else (2 + countRunAsc lt b rest, false)

/-- The binary search of `binarysort`: find the insertion position of
`pivot` in the sorted prefix `a[l..r)`, keeping equal elements before the
pivot (stability).  The fuel argument bounds the halving loop. -/
def binSearch {α : Type} (lt : α → α → Bool) (pivot : α) (a : List α) :
    Nat → Nat → Nat → Nat
  | 0, l, _ => l
  | fuel + 1, l, r =>
    if l < r then
      let p := l + (r - l) / 2
      if lt pivot (a.getD p pivot) then binSearch lt pivot a fuel l p
      else binSearch lt pivot a fuel (p + 1) r
    else l

def binInsert {α : Type} (lt : α → α → Bool) (x : α) (pre : List α) : List α :=
  let pos := binSearch lt x pre (pre.length + 1) 0 pre.length
  pre.take pos ++ x :: pre.drop pos

def binarySort {α : Type} (lt : α → α → Bool) : List α → List α → List α
  | pre, [] => pre
  | pre, x :: xs => binarySort lt (binInsert lt x pre) xs

/-- CPython stable forward sort for fewer than 64 elements. -/
def pySortSmall {α : Type} (lt : α → α → Bool) (l : List α) : List α :=
  let rd := countRun lt l
  let run := if rd.2 then (l.take rd.1).reverse else l.take rd.1
  binarySort lt run (l.drop rd.1)

/-- `sorted(l, key=..., reverse=True)` for fewer than 64 elements. -/
def pySortedRev {α : Type} (lt : α → α → Bool) (l : List α) : List α :=
  (pySortSmall lt l.reverse).reverse

/-- Contribution dictionary of the NaN-aware model: the three content
percentages are numeric, the popularity percentage is NaN when the
popularity score is. -/
structure ContributionsN where
  overview : Option ℚ
  genres : Option ℚ
  keywords : Option ℚ
  popularity : Option ℚ
deriving DecidableEq

structure RecommenderMovieN where
  id : Int
  relevance_score : Option ℚ
  column_contribution : ContributionsN
deriving DecidableEq

/-- `final_score if final_score > 0 else 1.0` over a possibly-NaN score:
`nan > 0` is `False`, so a NaN score also yields the numeric divisor `1`. -/
def safeDivisorN : Option ℚ → ℚ
  | some q => if 0 < q then q else 1
  | none => 1

def mkContributionsN (sqrt : ℚ → ℚ) (M : Matrices) (rows : List MovieRowN)
    (input_indices : List Nat) (w : Weights) (similarity_weight : ℚ)
    (idx : Nat) (final_score : Option ℚ) : ContributionsN :=
  let c_ov := simScore sqrt M.overview input_indices idx * w.overview * similarity_weight
  let c_ge := simScore sqrt M.genres input_indices idx * w.genres * similarity_weight
  let c_kw := simScore sqrt M.keywords input_indices idx * w.keywords * similarity_weight
  let c_pop := (popScoreN rows idx).map (fun pop => pop * (1 - similarity_weight))
  { overview := some (pyRound (c_ov / safeDivisorN final_score * 100) 2)
    genres := some (pyRound (c_ge / safeDivisorN final_score * 100) 2)
    keywords := some (pyRound (c_kw / safeDivisorN final_score * 100) 2)
    popularity := c_pop.map (fun c => pyRound (c / safeDivisorN final_score * 100) 2) }

def formatResultN (sqrt : ℚ → ℚ) (M : Matrices) (rows : List MovieRowN)
    (input_indices : List Nat) (w : Weights) (similarity_weight : ℚ)
    (p : Nat × Option ℚ) : RecommenderMovieN :=
  { id := (rows.getD p.1 default).id
    relevance_score := p.2.map (fun q => pyRound q 4)
    column_contribution :=
      mkContributionsN sqrt M rows input_indices w similarity_weight p.1 p.2 }

def recommendFittedN (sqrt : ℚ → ℚ) (M : Matrices) (rows : List MovieRowN)
    (input_indices : List Nat) (top_n : Int)
    (min_score similarity_weight : ℚ) (w : Weights) : List RecommenderMovieN :=
  if input_indices = [] then []
  else
    (pyTake top_n (pySortedRev (fun a b : Nat × Option ℚ => pyLt a.2 b.2)
        (candidateListN sqrt M rows input_indices w similarity_weight min_score))).map
      (formatResultN sqrt M rows input_indices w similarity_weight)

/-- `MovieRecommender.recommend` in the NaN-aware model. -/
def MovieRecommenderN.recommend (self : MovieRecommenderN) (sqrt : ℚ → ℚ)
    (movie_ids : List Int) (top_n : Int) (min_score similarity_weight : ℚ)
    (weights : Option Weights) : Except String (List RecommenderMovieN) :=
  match self.df with
  | none => .error notFittedError
  | some rows =>
    .ok (recommendFittedN sqrt self.matrices rows (resolveIndicesN rows movie_ids)
      top_n min_score similarity_weight
      (weights.getD MovieRecommender.default_weights))

/-- Fitted engine with a NaN popularity score: row 0 is the seed, row 1 is
orthogonal to it with popularity 1, row 2 has a NaN popularity score (its
catalog row had a missing `vote_average` and nonzero `vote_count`), row 3
matches the seed exactly with popularity 0. -/
def c2MatN : List (List ℚ) := [[1, 0], [0, 1], [0, 1], [1, 0]]

def c2RowsN : List MovieRowN :=
  [⟨1, some 0⟩, ⟨2, some 1⟩, ⟨3, none⟩, ⟨4, some 0⟩]

def c2StateN : MovieRecommenderN :=
  { df := some c2RowsN
    matrices := { overview := c2MatN, genres := c2MatN, keywords := c2MatN } }

/-- Counterexample to C2 as stated: on this fitted engine the candidate
final scores in row order are `1/5`, NaN, `4/5`; the NaN score survives the
`min_score` filter (the comparison is `False`), and in
`sorted(..., reverse=True)` every comparison against the NaN key is
`False`, so the reversed candidate list counts as a single run and the
output keeps the original row order: the result with final score `1/5`
precedes the result with final score `4/5`.  Two results with numeric
final scores thus appear in ascending, not descending, order, refuting the
claimed sortedness (here `top_n = 20 ≥ 1`, and the output and its
relevance scores are computed exactly). -/
theorem c2_counterexample :
    MovieRecommenderN.recommend c2StateN sqrtId [1] 20 0 (4/5) none =
      .ok [ { id := 2, relevance_score := some (1/5)
              column_contribution := ⟨some 0, some 0, some 0, some 100⟩ }
          , { id := 3, relevance_score := none
              column_contribution := ⟨some 0, some 0, some 0, none⟩ }
          , { id := 4, relevance_score := some (4/5)
              column_contribution := ⟨some 20, some 40, some 40, some 0⟩ } ] ∧
      (1/5 : ℚ) < 4/5 := by
  constructor
  · norm_num [MovieRecommenderN.recommend, recommendFittedN, candidateListN,
      pySortedRev, pySortSmall, countRun, countRunAsc, countRunDesc, binarySort,
      binInsert, binSearch, pyLt, pyTake, formatResultN, mkContributionsN,
      safeDivisorN, pyRound, finalScoreN, contentScore, simScore, cosineSim,
      safeNorm, sumSq, dot, userProfile, meanRows, addVec, matRow, popScoreN,
      resolveIndicesN, MovieRecommender.default_weights, c2StateN, c2RowsN, c2MatN,
      sqrtId, List.range_succ, List.filter_cons, List.reverse_cons, List.reverse_nil]
  · norm_num

end CineMatch
